import Mathlib

/-!
Verification of `mmedit/datasets/pipelines/sr_resize.py`.

The file shallowly embeds the two pipeline transforms (`SRResize`,
`RandomDownSampling`) and the shared helper `resize_fn`.  Images are
modelled at the level the transforms observe them: a rank-3 shape
(height, width, channels).  Python floats are modelled by exact
rationals; Python `round` is round-half-to-even; the epsilon `1e-9`
is the rational `1 / 10^9`.  The external collaborator
`mmcv.imresize` (the resampling kernel) is out of scope per the
source's docstrings; only its size contract — the result has the
requested spatial size and the same channel count — is modelled.
Randomness (`np.random.uniform`, `np.random.randint`) is modelled by
threading an explicit draw through the call.
-/

/-- A rank-3 image buffer, observed through its shape
`(height, width, channels)` as the transforms do (`img.shape`). -/
structure Image where
  h : Nat
  w : Nat
  c : Nat
deriving DecidableEq, Repr

/-- The runtime container of an image handed to the pipeline:
a `np.ndarray`, a `torch.Tensor`, or any other Python object
(tagged by the name of its type). -/
inductive PyObj where
  | array : Image → PyObj
  | tensor : Image → PyObj
  | other : String → PyObj
deriving DecidableEq, Repr

/-- Wrap an image in one of the two supported containers;
`t = true` for `torch.Tensor`, `t = false` for `np.ndarray`. -/
def wrapImg (t : Bool) (i : Image) : PyObj :=
  if t then PyObj.tensor i else PyObj.array i

/-- `obj.shape[-3]`, `obj.shape[-2]` for a rank-3 buffer: the spatial
size, available on arrays and tensors and on nothing else. -/
def PyObj.spatialDims : PyObj → Option (Nat × Nat)
  | PyObj.array i => some (i.h, i.w)
  | PyObj.tensor i => some (i.h, i.w)
  | PyObj.other _ => none

/-- Apply a shape transformation under the container (slicing an
`ndarray` or a `Tensor` keeps the container). -/
def PyObj.mapImage (f : Image → Image) : PyObj → PyObj
  | PyObj.array i => PyObj.array (f i)
  | PyObj.tensor i => PyObj.tensor (f i)
  | PyObj.other s => PyObj.other s

/-- The Python exceptions the embedded code can raise. -/
inductive PyError where
  | keyError : String → PyError
  | assertionError : String → PyError
  | valueError : String → PyError
  | typeError : String → PyError
  | attributeError : String → PyError
deriving DecidableEq, Repr

/-- A value stored in the sample dict: an image container, a number
(e.g. the chosen scale) or a string. -/
inductive Value where
  | img : PyObj → Value
  | num : Rat → Value
  | str : String → Value
deriving DecidableEq, Repr

/-- The sample mapping flowing through the pipeline: a dict from
string keys to values, modelled as an association list. -/
def Sample : Type := List (String × Value)

instance : DecidableEq Sample := by
  unfold Sample
  infer_instance

/-- `results[key]` read access (first binding wins). -/
def lookup : Sample → String → Option Value
  | [], _ => none
  | (k, v) :: rest, key => if k = key then some v else lookup rest key

/-- `results[key] = v` write access: overwrite the binding if the key
is present, append it otherwise. -/
def setKey : Sample → String → Value → Sample
  | [], key, v => [(key, v)]
  | (k, w) :: rest, key, v =>
      if k = key then (key, v) :: rest else (k, w) :: setKey rest key v

/-- The epsilon `1e-9` added before flooring sizes. -/
def eps : Rat := 1 / 1000000000

/-- Python 3 `round` on an exact value: round half to even. -/
def pyRound (q : Rat) : Int :=
  let f := ⌊q⌋
  let r := q - (f : Rat)
  if r < 1 / 2 then f
  else if 1 / 2 < r then f + 1
  else if f % 2 = 0 then f else f + 1

/-- The length of the Python slice `x[start:stop]` (step 1) of a
sequence of length `n`: negative indices count from the end and both
ends clamp to `[0, n]`. -/
def pySliceLen (n : Nat) (start stop : Int) : Nat :=
  let s := if start < 0 then max ((n : Int) + start) 0 else min start (n : Int)
  let e := if stop < 0 then max ((n : Int) + stop) 0 else min stop (n : Int)
  (e - s).toNat

/-- `img[x0:xStop, y0:yStop, :]` on a rank-3 buffer. -/
def Image.crop (i : Image) (x0 xStop y0 yStop : Int) : Image :=
  ⟨pySliceLen i.h x0 xStop, pySliceLen i.w y0 yStop, i.c⟩

/-- Size contract of the external `mmcv.imresize` collaborator (the
resampling kernel itself is out of scope): given a `(w, h)` target it
returns a buffer of spatial size `(h, w)` with the channel count
preserved. -/
def imresize (i : Image) (size : Int × Int) : Image :=
  ⟨size.2.toNat, size.1.toNat, i.c⟩

/-- The `size` argument of `resize_fn`: a bare int `w` or a pair
`(w, h)`. -/
inductive Size where
  | int : Int → Size
  | pair : Int → Int → Size
deriving DecidableEq, Repr

/-- `resize_fn(img, size, interpolation, backend)` (the `interp`
argument models the interpolation-method name): normalize an int
size to a square pair, dispatch arrays directly to `imresize`,
round-trip tensors through `.numpy()` / `torch.from_numpy`, and
raise `TypeError` on anything else. -/
def resize_fn (img : PyObj) (size : Size) (interp backend : String) :
    Except PyError PyObj :=
  let sz : Int × Int :=
    match size with
    | Size.int n => (n, n)
    | Size.pair w h => (w, h)
  match img with
  | PyObj.array i => Except.ok (PyObj.array (imresize i sz))
  | PyObj.tensor i => Except.ok (PyObj.tensor (imresize i sz))
  | PyObj.other t =>
      Except.error (PyError.typeError
        ("img should got np.ndarray or torch.Tensor, but got " ++ t))

/-- Configuration of the `SRResize` transform (the `interp` field
models the interpolation-method name). -/
structure SRResize where
  scale : Rat
  input_key : String
  output_key : String
  interp : String
  backend : String
deriving DecidableEq, Repr

/-- `SRResize.__call__(results)`.  Mutation of the dict is modelled by
returning the dict's final state together with the raised exception,
if any (`none` = normal return). -/
def SRResize.call (self : SRResize) (results : Sample) :
    Sample × Option PyError :=
  match lookup results self.input_key with
  | none =>
      (results, some (PyError.assertionError
        ("Cannot find " ++ self.input_key ++ ".")))
  | some (Value.img imageIn) =>
      match PyObj.spatialDims imageIn with
      | none => (results, some (PyError.attributeError "shape"))
      | some (hIn, wIn) =>
          let hOut : Int := ⌊(hIn : Rat) * self.scale + eps⌋
          let wOut : Int := ⌊(wIn : Rat) * self.scale + eps⌋
          match resize_fn imageIn (Size.pair wOut hOut) self.interp
              self.backend with
          | Except.ok imageOut =>
              (setKey results self.output_key (Value.img imageOut), none)
          | Except.error e => (results, some e)
  | some _ => (results, some (PyError.attributeError "shape"))

/-- Configuration of the `RandomDownSampling` transform (the `interp`
field models the interpolation-method name). -/
structure RandomDownSampling where
  scale_min : Rat
  scale_max : Rat
  patch_size : Option Nat
  interp : String
  backend : String
deriving DecidableEq, Repr

/-- `RandomDownSampling.__init__`: asserts `scale_max >= scale_min`
before storing the configuration. -/
def RandomDownSampling.init (scale_min scale_max : Rat)
    (patch_size : Option Nat) (interp backend : String) :
    Except PyError RandomDownSampling :=
  if scale_min ≤ scale_max then
    Except.ok ⟨scale_min, scale_max, patch_size, interp, backend⟩
  else
    Except.error (PyError.assertionError "scale_max >= scale_min")

/-- `np.random.uniform(lo, hi)` with an explicit draw: the draw's
fractional part selects a point of `[lo, hi)` (equal to `lo` when
`hi = lo`, as numpy behaves). -/
def npUniform (lo hi draw : Rat) : Rat :=
  lo + (hi - lo) * Int.fract draw

/-- `RandomDownSampling.__call__(results)` with the three random draws
made explicit: `scaleDraw` feeds `np.random.uniform(scale_min,
scale_max)` and `xDraw`, `yDraw` feed the two
`np.random.randint(0, high)` calls (`draw % high` when `high > 0`,
`ValueError` when `high <= 0`, exactly numpy's domain).  Mutation is
modelled as in `SRResize.call`. -/
def RandomDownSampling.call (self : RandomDownSampling) (scaleDraw : Rat)
    (xDraw yDraw : Nat) (results : Sample) : Sample × Option PyError :=
  match lookup results "gt" with
  | none => (results, some (PyError.keyError "gt"))
  | some (Value.img img) =>
      match PyObj.spatialDims img with
      | none => (results, some (PyError.attributeError "shape"))
      | some (hGt, wGt) =>
          let scale := npUniform self.scale_min self.scale_max scaleDraw
          match self.patch_size with
          | none =>
              let hLr : Int := ⌊(hGt : Rat) / scale + eps⌋
              let wLr : Int := ⌊(wGt : Rat) / scale + eps⌋
              let imgC := PyObj.mapImage
                (fun i => Image.crop i 0 (pyRound ((hLr : Rat) * scale))
                  0 (pyRound ((wLr : Rat) * scale))) img
              match resize_fn imgC (Size.pair wLr hLr) self.interp
                  self.backend with
              | Except.ok imgDown =>
                  (setKey (setKey (setKey results "gt" (Value.img imgC))
                    "lq" (Value.img imgDown)) "scale" (Value.num scale),
                    none)
              | Except.error e => (results, some e)
          | some p =>
              let wHr : Int := pyRound ((p : Rat) * scale)
              if (hGt : Int) - wHr ≤ 0 then
                (results, some (PyError.valueError "low >= high"))
              else
                let x0 : Int := (xDraw : Int) % ((hGt : Int) - wHr)
                if (wGt : Int) - wHr ≤ 0 then
                  (results, some (PyError.valueError "low >= high"))
                else
                  let y0 : Int := (yDraw : Int) % ((wGt : Int) - wHr)
                  let cropHr := PyObj.mapImage
                    (fun i => Image.crop i x0 (x0 + wHr) y0 (y0 + wHr)) img
                  match resize_fn cropHr (Size.int (p : Int)) self.interp
                      self.backend with
                  | Except.ok cropLr =>
                      (setKey (setKey (setKey results "gt"
                        (Value.img cropHr)) "lq" (Value.img cropLr))
                        "scale" (Value.num scale), none)
                  | Except.error e => (results, some e)
  | some _ => (results, some (PyError.attributeError "shape"))

theorem lookup_setKey_self (s : Sample) (k : String) (v : Value) :
    lookup (setKey s k v) k = some v := by
  induction s with
  | nil => simp [setKey, lookup]
  | cons hd tl ih =>
      obtain ⟨a, w⟩ := hd
      by_cases h : a = k
      · subst h
        simp [setKey, lookup]
      · simp [setKey, lookup, h, ih]

theorem lookup_setKey_ne (s : Sample) (k : String) (v : Value) (k' : String)
    (h : k' ≠ k) : lookup (setKey s k v) k' = lookup s k' := by
  induction s with
  | nil =>
      have hk : ¬k = k' := fun hkk => h hkk.symm
      simp [setKey, lookup, hk]
  | cons hd tl ih =>
      obtain ⟨a, w⟩ := hd
      by_cases ha : a = k
      · subst ha
        have hk : ¬a = k' := fun hkk => h hkk.symm
        simp [setKey, lookup, hk]
      · simp only [setKey, if_neg ha, lookup]
        by_cases ha' : a = k'
        · simp [ha']
        · simp [ha', ih]

theorem srresize_call_eq (s : Rat) (ikey okey itp bk : String) (t : Bool)
    (i : Image) (results : Sample)
    (hin : lookup results ikey = some (Value.img (wrapImg t i))) :
    SRResize.call ⟨s, ikey, okey, itp, bk⟩ results =
      (setKey results okey (Value.img (wrapImg t
        ⟨(⌊(i.h : Rat) * s + eps⌋).toNat, (⌊(i.w : Rat) * s + eps⌋).toNat,
          i.c⟩)), none) := by
  cases t <;>
    simp [SRResize.call, hin, wrapImg, PyObj.spatialDims, resize_fn, imresize]

/-- C1: for every positive scale `s` and input image of spatial size
`(H, W)` bound to the configured input key, `SRResize` returns with
the output key bound to an image of spatial size
`(floor(H*s + 1e-9), floor(W*s + 1e-9))` (both floors nonnegative). -/
theorem srresize_output_size (s : Rat) (hs : 0 < s)
    (ikey okey itp bk : String) (t : Bool) (H W c : Nat) (results : Sample)
    (hin : lookup results ikey = some (Value.img (wrapImg t ⟨H, W, c⟩))) :
    (SRResize.call ⟨s, ikey, okey, itp, bk⟩ results).2 = none ∧
    0 ≤ ⌊(H : Rat) * s + eps⌋ ∧ 0 ≤ ⌊(W : Rat) * s + eps⌋ ∧
    lookup (SRResize.call ⟨s, ikey, okey, itp, bk⟩ results).1 okey =
      some (Value.img (wrapImg t
        ⟨(⌊(H : Rat) * s + eps⌋).toNat, (⌊(W : Rat) * s + eps⌋).toNat,
          c⟩)) := by
  rw [srresize_call_eq s ikey okey itp bk t ⟨H, W, c⟩ results hin]
  have he : (0 : Rat) < eps := by norm_num [eps]
  refine ⟨rfl, ?_, ?_, lookup_setKey_self results okey _⟩
  · refine Int.le_floor.mpr ?_
    push_cast
    have h1 : (0 : Rat) ≤ (H : Rat) * s :=
      mul_nonneg (Nat.cast_nonneg H) hs.le
    linarith
  · refine Int.le_floor.mpr ?_
    push_cast
    have h1 : (0 : Rat) ≤ (W : Rat) * s :=
      mul_nonneg (Nat.cast_nonneg W) hs.le
    linarith

theorem srresize_output_size_witness :
    ((0 : Rat) < 1 / 2 ∧
      ((SRResize.call ⟨1 / 2, "gt", "lq", "bicubic", "pillow"⟩
          [("gt", Value.img (PyObj.array ⟨100, 100, 3⟩))]).2 = none ∧
        0 ≤ ⌊(100 : Rat) * (1 / 2) + eps⌋ ∧
        0 ≤ ⌊(100 : Rat) * (1 / 2) + eps⌋ ∧
        lookup (SRResize.call ⟨1 / 2, "gt", "lq", "bicubic", "pillow"⟩
            [("gt", Value.img (PyObj.array ⟨100, 100, 3⟩))]).1 "lq" =
          some (Value.img (wrapImg false
            ⟨(⌊(100 : Rat) * (1 / 2) + eps⌋).toNat,
              (⌊(100 : Rat) * (1 / 2) + eps⌋).toNat, 3⟩)))) ∧
    ((0 : Rat) < 2 ∧
      ((SRResize.call ⟨2, "gt", "out", "bicubic", "pillow"⟩
          [("gt", Value.img (PyObj.array ⟨100, 100, 3⟩))]).2 = none ∧
        0 ≤ ⌊(100 : Rat) * 2 + eps⌋ ∧
        0 ≤ ⌊(100 : Rat) * 2 + eps⌋ ∧
        lookup (SRResize.call ⟨2, "gt", "out", "bicubic", "pillow"⟩
            [("gt", Value.img (PyObj.array ⟨100, 100, 3⟩))]).1 "out" =
          some (Value.img (wrapImg false
            ⟨(⌊(100 : Rat) * 2 + eps⌋).toNat,
              (⌊(100 : Rat) * 2 + eps⌋).toNat, 3⟩)))) ∧
    (⌊(100 : Rat) * (1 / 2) + eps⌋).toNat = 50 ∧
    (⌊(100 : Rat) * 2 + eps⌋).toNat = 200 := by
  have h50 : ⌊(100 : Rat) * (1 / 2) + eps⌋ = (50 : Int) := by
    norm_num [eps, Int.floor_eq_iff]
  have h200 : ⌊(100 : Rat) * 2 + eps⌋ = (200 : Int) := by
    norm_num [eps, Int.floor_eq_iff]
  refine ⟨⟨by norm_num, ?_⟩, ⟨by norm_num, ?_⟩, by rw [h50]; rfl,
    by rw [h200]; rfl⟩
  · exact srresize_output_size (1 / 2) (by norm_num) "gt" "lq" "bicubic"
      "pillow" false 100 100 3 _ (by decide)
  · exact srresize_output_size 2 (by norm_num) "gt" "out" "bicubic"
      "pillow" false 100 100 3 _ (by decide)

/-- C6: when the configured input key is absent from the sample
mapping, `SRResize.__call__` raises (the `assert` surfaces a
missing-key error to the caller) and the mapping is unchanged. -/
theorem srresize_missing_key (s : Rat) (ikey okey itp bk : String)
    (results : Sample) (habs : lookup results ikey = none) :
    SRResize.call ⟨s, ikey, okey, itp, bk⟩ results =
      (results,
        some (PyError.assertionError ("Cannot find " ++ ikey ++ "."))) := by
  simp [SRResize.call, habs]

theorem srresize_missing_key_witness :
    lookup [("lq", Value.num 1)] "gt" = none ∧
    SRResize.call ⟨1 / 2, "gt", "out", "bicubic", "pillow"⟩
        [("lq", Value.num 1)] =
      ([("lq", Value.num 1)],
        some (PyError.assertionError "Cannot find gt.")) := by
  refine ⟨by decide, ?_⟩
  rw [srresize_missing_key (1 / 2) "gt" "out" "bicubic" "pillow"
    [("lq", Value.num 1)] (by decide)]
  rfl

/-- C8: a successful `SRResize` call on a mapping holding an image at
the input key returns the mapping with the output key rebound to an
image and every other key bound to its previous value. -/
theorem srresize_frame (s : Rat) (ikey okey itp bk : String) (t : Bool)
    (i : Image) (results : Sample)
    (hin : lookup results ikey = some (Value.img (wrapImg t i))) :
    (SRResize.call ⟨s, ikey, okey, itp, bk⟩ results).2 = none ∧
    (∃ iOut : Image, (SRResize.call ⟨s, ikey, okey, itp, bk⟩ results).1 =
      setKey results okey (Value.img (wrapImg t iOut))) ∧
    ∀ k : String, k ≠ okey →
      lookup (SRResize.call ⟨s, ikey, okey, itp, bk⟩ results).1 k =
        lookup results k := by
  rw [srresize_call_eq s ikey okey itp bk t i results hin]
  exact ⟨rfl, ⟨_, rfl⟩, fun k hk => lookup_setKey_ne results okey _ k hk⟩

theorem srresize_frame_witness :
    lookup [("meta", Value.str "m"),
        ("gt", Value.img (PyObj.array ⟨8, 6, 3⟩))] "gt" =
      some (Value.img (wrapImg false ⟨8, 6, 3⟩)) ∧
    (SRResize.call ⟨1 / 2, "gt", "lq", "bicubic", "pillow"⟩
        [("meta", Value.str "m"),
          ("gt", Value.img (PyObj.array ⟨8, 6, 3⟩))]).2 = none ∧
    lookup (SRResize.call ⟨1 / 2, "gt", "lq", "bicubic", "pillow"⟩
        [("meta", Value.str "m"),
          ("gt", Value.img (PyObj.array ⟨8, 6, 3⟩))]).1 "meta" =
      lookup [("meta", Value.str "m"),
        ("gt", Value.img (PyObj.array ⟨8, 6, 3⟩))] "meta" := by
  have h := srresize_frame (1 / 2) "gt" "lq" "bicubic" "pillow" false
    ⟨8, 6, 3⟩ [("meta", Value.str "m"),
      ("gt", Value.img (PyObj.array ⟨8, 6, 3⟩))] (by decide)
  exact ⟨by decide, h.1, h.2.2 "meta" (by decide)⟩

/-- The low-resolution extent `floor(n / scale + 1e-9)` computed by
the no-patch branch. -/
def lrFloor (n : Nat) (scale : Rat) : Int :=
  ⌊(n : Rat) / scale + eps⌋

/-- The trimmed high-resolution extent `round(lr * scale)` computed by
the no-patch branch. -/
def hrRound (lr : Int) (scale : Rat) : Int :=
  pyRound ((lr : Rat) * scale)

/-- The high-resolution crop extent `round(patch_size * scale)`
computed by the patch branch. -/
def wHrOf (p : Nat) (scale : Rat) : Int :=
  pyRound ((p : Rat) * scale)

/-- The crop origin produced by `np.random.randint(0, n - wHr)` from
the raw draw `d`. -/
def originDraw (d n : Nat) (wHr : Int) : Int :=
  (d : Int) % ((n : Int) - wHr)

theorem pyRound_nonneg (q : Rat) (hq : 0 ≤ q) : 0 ≤ pyRound q := by
  unfold pyRound
  have hf : (0 : Int) ≤ ⌊q⌋ := Int.le_floor.mpr (by exact_mod_cast hq)
  dsimp only
  split_ifs <;> omega

theorem npUniform_ge (lo hi d : Rat) (h : lo ≤ hi) :
    lo ≤ npUniform lo hi d := by
  unfold npUniform
  have h1 : 0 ≤ (hi - lo) * Int.fract d :=
    mul_nonneg (by linarith) (Int.fract_nonneg d)
  linarith

theorem npUniform_lt (lo hi d : Rat) (h : lo < hi) :
    npUniform lo hi d < hi := by
  unfold npUniform
  have h1 : (hi - lo) * Int.fract d < (hi - lo) * 1 :=
    mul_lt_mul_of_pos_left (Int.fract_lt_one d) (by linarith)
  linarith

theorem pySliceLen_zero (n : Nat) (r : Int) (hr : 0 ≤ r) :
    pySliceLen n 0 r = (min r (n : Int)).toNat := by
  unfold pySliceLen
  rw [if_neg (lt_irrefl 0), if_neg (not_lt.mpr hr),
    min_eq_left (Int.ofNat_nonneg n)]
  dsimp only
  rw [sub_zero]

theorem pySliceLen_inner (n : Nat) (a b : Int) (h0 : 0 ≤ a) (hab : a ≤ b)
    (hb : b ≤ (n : Int)) : pySliceLen n a b = (b - a).toNat := by
  unfold pySliceLen
  rw [if_neg (not_lt.mpr h0), if_neg (not_lt.mpr (le_trans h0 hab)),
    min_eq_left hb, min_eq_left (le_trans hab hb)]

theorem mapImage_wrapImg (f : Image → Image) (t : Bool) (i : Image) :
    PyObj.mapImage f (wrapImg t i) = wrapImg t (f i) := by
  cases t <;> simp [wrapImg, PyObj.mapImage]

theorem rds_call_nopatch_eq (smin smax : Rat) (itp bk : String) (t : Bool)
    (i : Image) (results : Sample) (sd : Rat) (xd yd : Nat) (scale : Rat)
    (hsc : scale = npUniform smin smax sd)
    (hgt : lookup results "gt" = some (Value.img (wrapImg t i))) :
    RandomDownSampling.call ⟨smin, smax, none, itp, bk⟩ sd xd yd results =
      (setKey (setKey (setKey results "gt" (Value.img (wrapImg t
          (Image.crop i 0 (hrRound (lrFloor i.h scale) scale)
            0 (hrRound (lrFloor i.w scale) scale)))))
        "lq" (Value.img (wrapImg t (imresize
          (Image.crop i 0 (hrRound (lrFloor i.h scale) scale)
            0 (hrRound (lrFloor i.w scale) scale))
          (lrFloor i.w scale, lrFloor i.h scale)))))
        "scale" (Value.num scale), none) := by
  subst hsc
  cases t <;>
    simp [RandomDownSampling.call, hgt, wrapImg, PyObj.spatialDims,
      PyObj.mapImage, resize_fn, imresize, lrFloor, hrRound]

theorem rds_call_patch_eq (smin smax : Rat) (p : Nat) (itp bk : String)
    (t : Bool) (i : Image) (results : Sample) (sd : Rat) (xd yd : Nat)
    (scale : Rat) (hsc : scale = npUniform smin smax sd)
    (hgt : lookup results "gt" = some (Value.img (wrapImg t i))) :
    RandomDownSampling.call ⟨smin, smax, some p, itp, bk⟩ sd xd yd
        results =
      if (i.h : Int) - wHrOf p scale ≤ 0 then
        (results, some (PyError.valueError "low >= high"))
      else if (i.w : Int) - wHrOf p scale ≤ 0 then
        (results, some (PyError.valueError "low >= high"))
      else
        (setKey (setKey (setKey results "gt" (Value.img (wrapImg t
            (Image.crop i
              (originDraw xd i.h (wHrOf p scale))
              (originDraw xd i.h (wHrOf p scale) + wHrOf p scale)
              (originDraw yd i.w (wHrOf p scale))
              (originDraw yd i.w (wHrOf p scale) + wHrOf p scale)))))
          "lq" (Value.img (wrapImg t (imresize
            (Image.crop i
              (originDraw xd i.h (wHrOf p scale))
              (originDraw xd i.h (wHrOf p scale) + wHrOf p scale)
              (originDraw yd i.w (wHrOf p scale))
              (originDraw yd i.w (wHrOf p scale) + wHrOf p scale))
            ((p : Int), (p : Int))))))
          "scale" (Value.num scale), none) := by
  subst hsc
  cases t <;>
    simp [RandomDownSampling.call, hgt, wrapImg, PyObj.spatialDims,
      PyObj.mapImage, resize_fn, imresize, wHrOf, originDraw]

theorem pyRound_intCast (z : Int) : pyRound ((z : Int) : Rat) = z := by
  unfold pyRound
  dsimp only
  rw [Int.floor_intCast, sub_self, if_pos (by norm_num)]

/-- C7: `RandomDownSampling.__init__` fails (assertion) exactly when
the scale bounds are inverted, and succeeds, storing the
configuration, whenever `scale_min <= scale_max`. -/
theorem rds_init_check (smin smax : Rat) (p : Option Nat)
    (itp bk : String) :
    (smax < smin → RandomDownSampling.init smin smax p itp bk =
      Except.error (PyError.assertionError "scale_max >= scale_min")) ∧
    (smin ≤ smax → RandomDownSampling.init smin smax p itp bk =
      Except.ok ⟨smin, smax, p, itp, bk⟩) := by
  constructor
  · intro h
    unfold RandomDownSampling.init
    rw [if_neg (not_le.mpr h)]
  · intro h
    unfold RandomDownSampling.init
    rw [if_pos h]

theorem rds_init_check_witness :
    ((1 : Rat) < 3 ∧ RandomDownSampling.init 3 1 none "bicubic" "pillow" =
      Except.error (PyError.assertionError "scale_max >= scale_min")) ∧
    ((1 : Rat) ≤ 3 ∧ RandomDownSampling.init 1 3 none "bicubic" "pillow" =
      Except.ok ⟨1, 3, none, "bicubic", "pillow"⟩) := by
  constructor
  · exact ⟨by norm_num,
      (rds_init_check 3 1 none "bicubic" "pillow").1 (by norm_num)⟩
  · exact ⟨by norm_num,
      (rds_init_check 1 3 none "bicubic" "pillow").2 (by norm_num)⟩

/-- C10: when the key `gt` is absent, `RandomDownSampling.__call__`
raises a `KeyError` whatever the random draws are (the lookup happens
before any draw is consumed or any key written), and the mapping is
returned unchanged. -/
theorem rds_missing_gt (smin smax : Rat) (p : Option Nat)
    (itp bk : String) (results : Sample)
    (habs : lookup results "gt" = none) (sd : Rat) (xd yd : Nat) :
    RandomDownSampling.call ⟨smin, smax, p, itp, bk⟩ sd xd yd results =
      (results, some (PyError.keyError "gt")) := by
  simp [RandomDownSampling.call, habs]

theorem rds_missing_gt_witness :
    lookup [("lq", Value.num 1)] "gt" = none ∧
    RandomDownSampling.call ⟨1, 4, none, "bicubic", "pillow"⟩ (1 / 3) 7 9
        [("lq", Value.num 1)] =
      ([("lq", Value.num 1)], some (PyError.keyError "gt")) :=
  ⟨by decide, rds_missing_gt 1 4 none "bicubic" "pillow"
    [("lq", Value.num 1)] (by decide) (1 / 3) 7 9⟩

/-- C5: `resize_fn` normalizes an integer size to the square pair,
maps arrays to arrays and tensors to tensors through the same
underlying resize, and fails — always with a `TypeError` — exactly
when the input is neither an array nor a tensor. -/
theorem resize_fn_dispatch (itp bk : String) :
    (∀ (img : PyObj) (n : Int),
      resize_fn img (Size.int n) itp bk =
        resize_fn img (Size.pair n n) itp bk) ∧
    (∀ (i : Image) (w h : Int),
      resize_fn (PyObj.array i) (Size.pair w h) itp bk =
        Except.ok (PyObj.array (imresize i (w, h)))) ∧
    (∀ (i : Image) (w h : Int),
      resize_fn (PyObj.tensor i) (Size.pair w h) itp bk =
        Except.ok (PyObj.tensor (imresize i (w, h)))) ∧
    (∀ (img : PyObj) (sz : Size),
      (∃ e : PyError, resize_fn img sz itp bk = Except.error e) ↔
        ∃ tag : String, img = PyObj.other tag) ∧
    (∀ (img : PyObj) (sz : Size) (e : PyError),
      resize_fn img sz itp bk = Except.error e →
        ∃ m : String, e = PyError.typeError m) := by
  refine ⟨?_, ?_, ?_, ?_, ?_⟩
  · intro img n
    cases img <;> rfl
  · intro i w h
    rfl
  · intro i w h
    rfl
  · intro img sz
    constructor
    · rintro ⟨e, he⟩
      cases img with
      | array i => exact absurd he (by simp [resize_fn])
      | tensor i => exact absurd he (by simp [resize_fn])
      | other tag => exact ⟨tag, rfl⟩
    · rintro ⟨tag, rfl⟩
      exact ⟨_, rfl⟩
  · intro img sz e he
    cases img with
    | array i => exact absurd he (by simp [resize_fn])
    | tensor i => exact absurd he (by simp [resize_fn])
    | other tag =>
        have hv : resize_fn (PyObj.other tag) sz itp bk =
            Except.error (PyError.typeError
              ("img should got np.ndarray or torch.Tensor, but got " ++
                tag)) := rfl
        rw [hv] at he
        injection he with h
        exact ⟨_, h.symm⟩

theorem resize_fn_dispatch_witness :
    resize_fn (PyObj.array ⟨4, 4, 3⟩) (Size.int 2) "bicubic" "pillow" =
      resize_fn (PyObj.array ⟨4, 4, 3⟩) (Size.pair 2 2) "bicubic"
        "pillow" ∧
    resize_fn (PyObj.tensor ⟨4, 4, 3⟩) (Size.pair 2 3) "bicubic"
        "pillow" =
      Except.ok (PyObj.tensor (imresize ⟨4, 4, 3⟩ (2, 3))) ∧
    resize_fn (PyObj.other "list") (Size.int 2) "bicubic" "pillow" =
      Except.error (PyError.typeError
        "img should got np.ndarray or torch.Tensor, but got list") := by
  have h := resize_fn_dispatch "bicubic" "pillow"
  refine ⟨h.1 (PyObj.array ⟨4, 4, 3⟩) 2, h.2.2.1 ⟨4, 4, 3⟩ 2 3, ?_⟩
  obtain ⟨m, hm⟩ := h.2.2.2.2 (PyObj.other "list") (Size.int 2) _ rfl
  rfl

theorem npUniform_self (lo d : Rat) : npUniform lo lo d = lo := by
  unfold npUniform
  ring

/-- C4 counterexample: a 32x32 source with patch size 16 and drawn
scale 2 gives a high-resolution extent of exactly 32 — it does not
exceed the image extent — yet the call fails with the out-of-range
error, because `np.random.randint(0, 32 - 32)` has an empty range. -/
theorem rds_patch_boundary_cex :
    npUniform 2 (5 / 2) 0 = 2 ∧
    wHrOf 16 2 = 32 ∧
    ¬((32 : Int) < wHrOf 16 2) ∧
    (RandomDownSampling.call ⟨2, 5 / 2, some 16, "bicubic", "pillow"⟩ 0 0 0
        [("gt", Value.img (PyObj.array ⟨32, 32, 3⟩))]).2 =
      some (PyError.valueError "low >= high") := by
  have hu : npUniform 2 (5 / 2) 0 = 2 := by
    unfold npUniform
    rw [Int.fract_zero]
    ring
  have hw : wHrOf 16 2 = 32 := by
    unfold wHrOf
    rw [show ((16 : Nat) : Rat) * 2 = ((32 : Int) : Rat) by push_cast; norm_num]
    exact pyRound_intCast 32
  have hchar := rds_call_patch_eq 2 (5 / 2) 16 "bicubic" "pillow" false
    ⟨32, 32, 3⟩ [("gt", Value.img (PyObj.array ⟨32, 32, 3⟩))] 0 0 0
    (npUniform 2 (5 / 2) 0) rfl (by decide)
  rw [hu, hw] at hchar
  refine ⟨hu, hw, by rw [hw]; omega, ?_⟩
  rw [hchar]
  rw [if_pos (by norm_num)]

/-- C4 amended: with a fixed patch size `p`, the call fails with the
out-of-range error exactly when the implied high-resolution extent
`round(p*scale)` is greater than OR EQUAL TO the source extent on
either spatial axis (the half-open origin range is then empty); on
failure nothing is written, and the failure always surfaces as the
raised error. -/
theorem rds_patch_error_iff (smin smax : Rat) (p : Nat)
    (itp bk : String) (t : Bool) (H W c : Nat) (results : Sample)
    (sd : Rat) (xd yd : Nat)
    (hgt : lookup results "gt" = some (Value.img (wrapImg t ⟨H, W, c⟩))) :
    ((RandomDownSampling.call ⟨smin, smax, some p, itp, bk⟩ sd xd yd
        results).2 =
      some (PyError.valueError "low >= high") ↔
      ((H : Int) ≤ wHrOf p (npUniform smin smax sd) ∨
        (W : Int) ≤ wHrOf p (npUniform smin smax sd))) ∧
    ((RandomDownSampling.call ⟨smin, smax, some p, itp, bk⟩ sd xd yd
        results).2 ≠ none →
      (RandomDownSampling.call ⟨smin, smax, some p, itp, bk⟩ sd xd yd
        results).1 = results) := by
  have hchar := rds_call_patch_eq smin smax p itp bk t ⟨H, W, c⟩ results
    sd xd yd (npUniform smin smax sd) rfl hgt
  rw [hchar]
  by_cases h1 : (H : Int) - wHrOf p (npUniform smin smax sd) ≤ 0
  · rw [if_pos h1]
    exact ⟨by constructor <;> intro <;> [omega; rfl], fun _ => rfl⟩
  · rw [if_neg h1]
    by_cases h2 : (W : Int) - wHrOf p (npUniform smin smax sd) ≤ 0
    · rw [if_pos h2]
      exact ⟨by constructor <;> intro <;> [omega; rfl], fun _ => rfl⟩
    · rw [if_neg h2]
      constructor
      · constructor
        · intro hc
          exact absurd hc (by simp)
        · intro hc
          omega
      · intro hc
        exact absurd rfl hc

theorem rds_patch_error_iff_witness :
    (RandomDownSampling.call ⟨2, 5 / 2, some 16, "bicubic", "pillow"⟩ 0 0 0
        [("gt", Value.img (PyObj.array ⟨32, 32, 3⟩))]).2 =
      some (PyError.valueError "low >= high") ∧
    (RandomDownSampling.call ⟨2, 5 / 2, some 16, "bicubic", "pillow"⟩ 0 0 0
        [("gt", Value.img (PyObj.array ⟨32, 32, 3⟩))]).1 =
      [("gt", Value.img (PyObj.array ⟨32, 32, 3⟩))] := by
  have h := rds_patch_error_iff 2 (5 / 2) 16 "bicubic" "pillow" false
    32 32 3 [("gt", Value.img (PyObj.array ⟨32, 32, 3⟩))] 0 0 0 (by decide)
  have hu : npUniform 2 (5 / 2) 0 = 2 := by
    unfold npUniform
    rw [Int.fract_zero]
    ring
  have hw : wHrOf 16 2 = 32 := by
    unfold wHrOf
    rw [show ((16 : Nat) : Rat) * 2 = ((32 : Int) : Rat) by
      push_cast; norm_num]
    exact pyRound_intCast 32
  rw [hu, hw] at h
  have herr := h.1.mpr (Or.inl (by norm_num))
  exact ⟨herr, h.2 (by rw [herr]; simp)⟩

/-- C3: with a fixed patch size `p`, every successful call (for a
positive lower scale bound) crops a `round(p*scale)`-square
high-resolution patch whose box lies fully inside the source image
and writes it under `gt`, writes the `p x p` low-resolution resize
under `lq`, and records the drawn scale. -/
theorem rds_patch_sizes (smin smax : Rat) (p : Nat) (itp bk : String)
    (t : Bool) (H W c : Nat) (results : Sample) (sd : Rat) (xd yd : Nat)
    (h0 : 0 < smin) (hle : smin ≤ smax)
    (hgt : lookup results "gt" = some (Value.img (wrapImg t ⟨H, W, c⟩)))
    (hsucc : (RandomDownSampling.call ⟨smin, smax, some p, itp, bk⟩ sd xd
      yd results).2 = none) :
    ∃ x0 y0 : Int,
      0 ≤ x0 ∧ 0 ≤ y0 ∧
      x0 + wHrOf p (npUniform smin smax sd) ≤ (H : Int) ∧
      y0 + wHrOf p (npUniform smin smax sd) ≤ (W : Int) ∧
      (RandomDownSampling.call ⟨smin, smax, some p, itp, bk⟩ sd xd yd
          results).1 =
        setKey (setKey (setKey results "gt" (Value.img (wrapImg t
            ⟨(wHrOf p (npUniform smin smax sd)).toNat,
              (wHrOf p (npUniform smin smax sd)).toNat, c⟩)))
          "lq" (Value.img (wrapImg t ⟨p, p, c⟩)))
          "scale" (Value.num (npUniform smin smax sd)) := by
  have hchar := rds_call_patch_eq smin smax p itp bk t ⟨H, W, c⟩ results
    sd xd yd (npUniform smin smax sd) rfl hgt
  dsimp only at hchar
  set scale := npUniform smin smax sd with hscale
  set wHr := wHrOf p scale with hwhr
  have hs : (0 : Rat) < scale :=
    lt_of_lt_of_le h0 (npUniform_ge smin smax sd hle)
  have hwnn : (0 : Int) ≤ wHr := by
    rw [hwhr]
    exact pyRound_nonneg _ (mul_nonneg (Nat.cast_nonneg p) hs.le)
  rw [hchar] at hsucc
  have h1 : ¬((H : Int) - wHr ≤ 0) := by
    intro hcond
    rw [if_pos hcond] at hsucc
    exact Option.noConfusion hsucc
  have h2 : ¬((W : Int) - wHr ≤ 0) := by
    intro hcond
    rw [if_neg h1, if_pos hcond] at hsucc
    exact Option.noConfusion hsucc
  rw [if_neg h1, if_neg h2] at hchar
  have hx0 : (0 : Int) ≤ originDraw xd H wHr :=
    Int.emod_nonneg _ (by omega)
  have hy0 : (0 : Int) ≤ originDraw yd W wHr :=
    Int.emod_nonneg _ (by omega)
  have hxlt : originDraw xd H wHr < (H : Int) - wHr :=
    Int.emod_lt_of_pos _ (by omega)
  have hylt : originDraw yd W wHr < (W : Int) - wHr :=
    Int.emod_lt_of_pos _ (by omega)
  refine ⟨originDraw xd H wHr, originDraw yd W wHr, hx0, hy0, by omega,
    by omega, ?_⟩
  rw [hchar]
  have hc1 : pySliceLen H (originDraw xd H wHr)
      (originDraw xd H wHr + wHr) = wHr.toNat := by
    rw [pySliceLen_inner H _ _ hx0 (by omega) (by omega)]
    omega
  have hc2 : pySliceLen W (originDraw yd W wHr)
      (originDraw yd W wHr + wHr) = wHr.toNat := by
    rw [pySliceLen_inner W _ _ hy0 (by omega) (by omega)]
    omega
  simp only [Image.crop, imresize, hc1, hc2, Int.toNat_natCast]

theorem rds_patch_sizes_witness :
    (RandomDownSampling.call ⟨2, 2, some 16, "bicubic", "pillow"⟩ 0 37 5
        [("gt", Value.img (PyObj.array ⟨64, 64, 3⟩))]).2 = none ∧
    wHrOf 16 (npUniform 2 2 0) = 32 ∧
    lookup (RandomDownSampling.call ⟨2, 2, some 16, "bicubic", "pillow"⟩
        0 37 5 [("gt", Value.img (PyObj.array ⟨64, 64, 3⟩))]).1 "gt" =
      some (Value.img (PyObj.array ⟨32, 32, 3⟩)) ∧
    lookup (RandomDownSampling.call ⟨2, 2, some 16, "bicubic", "pillow"⟩
        0 37 5 [("gt", Value.img (PyObj.array ⟨64, 64, 3⟩))]).1 "lq" =
      some (Value.img (PyObj.array ⟨16, 16, 3⟩)) := by
  have hu : npUniform 2 2 0 = 2 := npUniform_self 2 0
  have hw : wHrOf 16 2 = 32 := by
    unfold wHrOf
    rw [show ((16 : Nat) : Rat) * 2 = ((32 : Int) : Rat) by
      push_cast; norm_num]
    exact pyRound_intCast 32
  have hchar := rds_call_patch_eq 2 2 16 "bicubic" "pillow" false
    ⟨64, 64, 3⟩ [("gt", Value.img (PyObj.array ⟨64, 64, 3⟩))] 0 37 5
    (npUniform 2 2 0) rfl (by decide)
  dsimp only at hchar
  rw [hu, hw, if_neg (by norm_num), if_neg (by norm_num)] at hchar
  have hsucc : (RandomDownSampling.call
      ⟨2, 2, some 16, "bicubic", "pillow"⟩ 0 37 5
      [("gt", Value.img (PyObj.array ⟨64, 64, 3⟩))]).2 = none := by
    rw [hchar]
  obtain ⟨x0, y0, -, -, -, -, hchain⟩ := rds_patch_sizes 2 2 16 "bicubic"
    "pillow" false 64 64 3 [("gt", Value.img (PyObj.array ⟨64, 64, 3⟩))]
    0 37 5 (by norm_num) (le_refl 2) (by decide) hsucc
  rw [hu, hw] at hchain
  refine ⟨hsucc, by rw [hu]; exact hw, ?_, ?_⟩
  · rw [hchain, lookup_setKey_ne _ _ _ _ (by decide),
      lookup_setKey_ne _ _ _ _ (by decide), lookup_setKey_self]
    rfl
  · rw [hchain, lookup_setKey_ne _ _ _ _ (by decide), lookup_setKey_self]
    rfl

/-- C2 amended: with no patch size, for every call on a `gt` image of
size `(H, W)` (bounds `0 < scale_min < scale_max`): the drawn scale
lies in `[scale_min, scale_max)`; the `lq` image has size
`floor(H/scale + 1e-9)` by `floor(W/scale + 1e-9)`; and the `gt`
image is the crop from the origin of extent
`min(round(h_lr*scale), H)` by `min(round(w_lr*scale), W)` — the
slice clamps `round(h_lr*scale)` at the image bound — so both
dimensions are at most the originals. -/
theorem rds_nopatch_sizes (smin smax : Rat) (itp bk : String) (t : Bool)
    (H W c : Nat) (results : Sample) (sd : Rat) (xd yd : Nat)
    (h0 : 0 < smin) (hlt : smin < smax)
    (hgt : lookup results "gt" = some (Value.img (wrapImg t ⟨H, W, c⟩))) :
    smin ≤ npUniform smin smax sd ∧
    npUniform smin smax sd < smax ∧
    0 ≤ lrFloor H (npUniform smin smax sd) ∧
    0 ≤ lrFloor W (npUniform smin smax sd) ∧
    (RandomDownSampling.call ⟨smin, smax, none, itp, bk⟩ sd xd yd
      results).2 = none ∧
    (RandomDownSampling.call ⟨smin, smax, none, itp, bk⟩ sd xd yd
        results).1 =
      setKey (setKey (setKey results "gt" (Value.img (wrapImg t
          ⟨(min (hrRound (lrFloor H (npUniform smin smax sd))
              (npUniform smin smax sd)) (H : Int)).toNat,
            (min (hrRound (lrFloor W (npUniform smin smax sd))
              (npUniform smin smax sd)) (W : Int)).toNat, c⟩)))
        "lq" (Value.img (wrapImg t
          ⟨(lrFloor H (npUniform smin smax sd)).toNat,
            (lrFloor W (npUniform smin smax sd)).toNat, c⟩)))
        "scale" (Value.num (npUniform smin smax sd)) ∧
    (min (hrRound (lrFloor H (npUniform smin smax sd))
      (npUniform smin smax sd)) (H : Int)).toNat ≤ H ∧
    (min (hrRound (lrFloor W (npUniform smin smax sd))
      (npUniform smin smax sd)) (W : Int)).toNat ≤ W := by
  have hchar := rds_call_nopatch_eq smin smax itp bk t ⟨H, W, c⟩ results
    sd xd yd (npUniform smin smax sd) rfl hgt
  dsimp only at hchar
  set scale := npUniform smin smax sd with hscale
  have hsmin : smin ≤ scale := npUniform_ge smin smax sd hlt.le
  have hsmax : scale < smax := npUniform_lt smin smax sd hlt
  have hs : (0 : Rat) < scale := lt_of_lt_of_le h0 hsmin
  have hlrH : (0 : Int) ≤ lrFloor H scale := by
    unfold lrFloor
    refine Int.le_floor.mpr ?_
    push_cast
    have hd : (0 : Rat) ≤ (H : Rat) / scale :=
      div_nonneg (Nat.cast_nonneg H) hs.le
    have he : (0 : Rat) < eps := by norm_num [eps]
    linarith
  have hlrW : (0 : Int) ≤ lrFloor W scale := by
    unfold lrFloor
    refine Int.le_floor.mpr ?_
    push_cast
    have hd : (0 : Rat) ≤ (W : Rat) / scale :=
      div_nonneg (Nat.cast_nonneg W) hs.le
    have he : (0 : Rat) < eps := by norm_num [eps]
    linarith
  have hrH : (0 : Int) ≤ hrRound (lrFloor H scale) scale := by
    unfold hrRound
    exact pyRound_nonneg _ (mul_nonneg (by exact_mod_cast hlrH) hs.le)
  have hrW : (0 : Int) ≤ hrRound (lrFloor W scale) scale := by
    unfold hrRound
    exact pyRound_nonneg _ (mul_nonneg (by exact_mod_cast hlrW) hs.le)
  have hc1 : pySliceLen H 0 (hrRound (lrFloor H scale) scale) =
      (min (hrRound (lrFloor H scale) scale) (H : Int)).toNat :=
    pySliceLen_zero H _ hrH
  have hc2 : pySliceLen W 0 (hrRound (lrFloor W scale) scale) =
      (min (hrRound (lrFloor W scale) scale) (W : Int)).toNat :=
    pySliceLen_zero W _ hrW
  refine ⟨hsmin, hsmax, hlrH, hlrW, by rw [hchar], ?_,
    Int.toNat_le.mpr (min_le_right _ _), Int.toNat_le.mpr (min_le_right _ _)⟩
  rw [hchar]
  simp only [Image.crop, imresize, hc1, hc2]

theorem rds_nopatch_sizes_witness :
    npUniform 2 4 0 = 2 ∧ lrFloor 64 2 = 32 ∧ hrRound 32 2 = 64 ∧
    (RandomDownSampling.call ⟨2, 4, none, "bicubic", "pillow"⟩ 0 0 0
      [("gt", Value.img (PyObj.array ⟨64, 64, 3⟩))]).2 = none ∧
    lookup (RandomDownSampling.call ⟨2, 4, none, "bicubic", "pillow"⟩ 0 0 0
        [("gt", Value.img (PyObj.array ⟨64, 64, 3⟩))]).1 "gt" =
      some (Value.img (PyObj.array ⟨64, 64, 3⟩)) ∧
    lookup (RandomDownSampling.call ⟨2, 4, none, "bicubic", "pillow"⟩ 0 0 0
        [("gt", Value.img (PyObj.array ⟨64, 64, 3⟩))]).1 "lq" =
      some (Value.img (PyObj.array ⟨32, 32, 3⟩)) ∧
    lookup (RandomDownSampling.call ⟨2, 4, none, "bicubic", "pillow"⟩ 0 0 0
        [("gt", Value.img (PyObj.array ⟨64, 64, 3⟩))]).1 "scale" =
      some (Value.num 2) := by
  have hu : npUniform 2 4 0 = 2 := by
    unfold npUniform
    rw [Int.fract_zero]
    ring
  have hlr : lrFloor 64 2 = 32 := by
    unfold lrFloor
    norm_num [eps, Int.floor_eq_iff]
  have hhr : hrRound 32 2 = 64 := by
    unfold hrRound
    rw [show ((32 : Int) : Rat) * 2 = ((64 : Int) : Rat) by
      push_cast; norm_num]
    exact pyRound_intCast 64
  obtain ⟨-, -, -, -, hsucc, hchain, -, -⟩ := rds_nopatch_sizes 2 4
    "bicubic" "pillow" false 64 64 3
    [("gt", Value.img (PyObj.array ⟨64, 64, 3⟩))] 0 0 0 (by norm_num)
    (by norm_num) (by decide)
  rw [hu, hlr, hhr] at hchain
  norm_num at hchain
  refine ⟨hu, hlr, hhr, hsucc, ?_, ?_, ?_⟩
  · rw [hchain, lookup_setKey_ne _ _ _ _ (by decide),
      lookup_setKey_ne _ _ _ _ (by decide), lookup_setKey_self]
    rfl
  · rw [hchain, lookup_setKey_ne _ _ _ _ (by decide), lookup_setKey_self]
    rfl
  · rw [hchain, lookup_setKey_self]

/-- C2 counterexample: a 3999999999-square source with drawn scale
2000000000 has `h_lr = floor(H/scale + 1e-9) = 2` (the epsilon tips
the floor up) and `round(h_lr*scale) = 4000000000 > H`, so the origin
crop clamps at `H` and the written `gt` image is 3999999999 square,
not `round(h_lr*scale)` square as the claim states. -/
theorem rds_nopatch_clamp_cex :
    npUniform 2000000000 3000000000 0 = 2000000000 ∧
    lrFloor 3999999999 2000000000 = 2 ∧
    hrRound 2 2000000000 = 4000000000 ∧
    (RandomDownSampling.call
      ⟨2000000000, 3000000000, none, "bicubic", "pillow"⟩ 0 0 0
      [("gt", Value.img (PyObj.array ⟨3999999999, 3999999999, 3⟩))]).2 =
      none ∧
    lookup (RandomDownSampling.call
        ⟨2000000000, 3000000000, none, "bicubic", "pillow"⟩ 0 0 0
        [("gt", Value.img
          (PyObj.array ⟨3999999999, 3999999999, 3⟩))]).1 "gt" =
      some (Value.img (PyObj.array ⟨3999999999, 3999999999, 3⟩)) ∧
    (3999999999 : Nat) ≠ (hrRound 2 2000000000).toNat := by
  have hu : npUniform 2000000000 3000000000 0 = 2000000000 := by
    unfold npUniform
    rw [Int.fract_zero]
    ring
  have hlr : lrFloor 3999999999 2000000000 = 2 := by
    unfold lrFloor
    norm_num [eps, Int.floor_eq_iff]
  have hhr : hrRound 2 2000000000 = 4000000000 := by
    unfold hrRound
    rw [show ((2 : Int) : Rat) * 2000000000 = ((4000000000 : Int) : Rat) by
      push_cast; norm_num]
    exact pyRound_intCast 4000000000
  have hchar := rds_call_nopatch_eq 2000000000 3000000000 "bicubic"
    "pillow" false ⟨3999999999, 3999999999, 3⟩
    [("gt", Value.img (PyObj.array ⟨3999999999, 3999999999, 3⟩))] 0 0 0
    (npUniform 2000000000 3000000000 0) rfl (by decide)
  dsimp only at hchar
  rw [hu, hlr, hhr] at hchar
  have hcrop : Image.crop ⟨3999999999, 3999999999, 3⟩ 0 4000000000 0
      4000000000 = ⟨3999999999, 3999999999, 3⟩ := by
    show (⟨pySliceLen 3999999999 0 4000000000,
      pySliceLen 3999999999 0 4000000000, 3⟩ : Image) =
      (⟨3999999999, 3999999999, 3⟩ : Image)
    rw [pySliceLen_zero _ _ (by norm_num),
      min_eq_right (by norm_num : ((3999999999 : Nat) : Int) ≤ 4000000000)]
    simp [Int.toNat_natCast]
  rw [hcrop] at hchar
  refine ⟨hu, hlr, hhr, by rw [hchar], ?_, by rw [hhr]; omega⟩
  rw [hchar]
  rw [lookup_setKey_ne _ _ _ _ (by decide),
    lookup_setKey_ne _ _ _ _ (by decide), lookup_setKey_self]
  rfl

theorem rds_call_success_shape (self : RandomDownSampling) (sd : Rat)
    (xd yd : Nat) (results : Sample)
    (hsucc : (RandomDownSampling.call self sd xd yd results).2 = none) :
    ∃ (g l : PyObj) (sc : Rat),
      (RandomDownSampling.call self sd xd yd results).1 =
        setKey (setKey (setKey results "gt" (Value.img g)) "lq"
          (Value.img l)) "scale" (Value.num sc) := by
  obtain ⟨smin, smax, p, itp, bk⟩ := self
  rcases hlk : lookup results "gt" with _ | v
  · have hv : RandomDownSampling.call ⟨smin, smax, p, itp, bk⟩ sd xd yd
        results = (results, some (PyError.keyError "gt")) := by
      simp [RandomDownSampling.call, hlk]
    rw [hv] at hsucc
    exact absurd hsucc (by simp)
  · rcases v with o | q | s
    · rcases o with i | i | tag
      · rcases p with _ | p
        · have hchar := rds_call_nopatch_eq smin smax itp bk false i
            results sd xd yd (npUniform smin smax sd) rfl hlk
          exact ⟨_, _, _, by rw [hchar]⟩
        · have hchar := rds_call_patch_eq smin smax p itp bk false i
            results sd xd yd (npUniform smin smax sd) rfl hlk
          rw [hchar] at hsucc ⊢
          split_ifs at hsucc ⊢ with h1 h2
          exact ⟨_, _, _, rfl⟩
      · rcases p with _ | p
        · have hchar := rds_call_nopatch_eq smin smax itp bk true i
            results sd xd yd (npUniform smin smax sd) rfl hlk
          exact ⟨_, _, _, by rw [hchar]⟩
        · have hchar := rds_call_patch_eq smin smax p itp bk true i
            results sd xd yd (npUniform smin smax sd) rfl hlk
          rw [hchar] at hsucc ⊢
          split_ifs at hsucc ⊢ with h1 h2
          exact ⟨_, _, _, rfl⟩
      · have hv : RandomDownSampling.call ⟨smin, smax, p, itp, bk⟩ sd xd
            yd results = (results, some (PyError.attributeError
            "shape")) := by
          simp [RandomDownSampling.call, hlk, PyObj.spatialDims]
        rw [hv] at hsucc
        exact absurd hsucc (by simp)
    · have hv : RandomDownSampling.call ⟨smin, smax, p, itp, bk⟩ sd xd yd
          results = (results, some (PyError.attributeError "shape")) := by
        simp [RandomDownSampling.call, hlk]
      rw [hv] at hsucc
      exact absurd hsucc (by simp)
    · have hv : RandomDownSampling.call ⟨smin, smax, p, itp, bk⟩ sd xd yd
          results = (results, some (PyError.attributeError "shape")) := by
        simp [RandomDownSampling.call, hlk]
      rw [hv] at hsucc
      exact absurd hsucc (by simp)

/-- C9: every successful `RandomDownSampling` call returns the input
mapping with exactly the keys `gt`, `lq` and `scale` (over)written —
`gt` and `lq` to image containers, `scale` to the drawn number — and
every other key bound to the same value as before the call. -/
theorem rds_frame (self : RandomDownSampling) (sd : Rat) (xd yd : Nat)
    (results : Sample)
    (hsucc : (RandomDownSampling.call self sd xd yd results).2 = none) :
    ∃ (g l : PyObj) (sc : Rat),
      (RandomDownSampling.call self sd xd yd results).1 =
        setKey (setKey (setKey results "gt" (Value.img g)) "lq"
          (Value.img l)) "scale" (Value.num sc) ∧
      lookup (RandomDownSampling.call self sd xd yd results).1 "gt" =
        some (Value.img g) ∧
      lookup (RandomDownSampling.call self sd xd yd results).1 "lq" =
        some (Value.img l) ∧
      lookup (RandomDownSampling.call self sd xd yd results).1 "scale" =
        some (Value.num sc) ∧
      ∀ k : String, k ≠ "gt" → k ≠ "lq" → k ≠ "scale" →
        lookup (RandomDownSampling.call self sd xd yd results).1 k =
          lookup results k := by
  obtain ⟨g, l, sc, hchain⟩ :=
    rds_call_success_shape self sd xd yd results hsucc
  refine ⟨g, l, sc, hchain, ?_, ?_, ?_, ?_⟩
  · rw [hchain, lookup_setKey_ne _ _ _ _ (by decide),
      lookup_setKey_ne _ _ _ _ (by decide), lookup_setKey_self]
  · rw [hchain, lookup_setKey_ne _ _ _ _ (by decide), lookup_setKey_self]
  · rw [hchain, lookup_setKey_self]
  · intro k h1 h2 h3
    rw [hchain, lookup_setKey_ne _ _ _ _ h3, lookup_setKey_ne _ _ _ _ h2,
      lookup_setKey_ne _ _ _ _ h1]

theorem rds_frame_witness :
    (RandomDownSampling.call ⟨2, 2, none, "bicubic", "pillow"⟩ 0 0 0
      [("gt", Value.img (PyObj.array ⟨8, 8, 3⟩)),
        ("meta", Value.str "m")]).2 = none ∧
    lookup (RandomDownSampling.call ⟨2, 2, none, "bicubic", "pillow"⟩ 0 0
        0 [("gt", Value.img (PyObj.array ⟨8, 8, 3⟩)),
          ("meta", Value.str "m")]).1 "meta" =
      lookup [("gt", Value.img (PyObj.array ⟨8, 8, 3⟩)),
        ("meta", Value.str "m")] "meta" := by
  have hchar := rds_call_nopatch_eq 2 2 "bicubic" "pillow" false ⟨8, 8, 3⟩
    [("gt", Value.img (PyObj.array ⟨8, 8, 3⟩)), ("meta", Value.str "m")]
    0 0 0 (npUniform 2 2 0) rfl (by decide)
  have hsucc : (RandomDownSampling.call ⟨2, 2, none, "bicubic", "pillow"⟩
      0 0 0 [("gt", Value.img (PyObj.array ⟨8, 8, 3⟩)),
        ("meta", Value.str "m")]).2 = none := by
    rw [hchar]
  obtain ⟨g, l, sc, -, -, -, -, hframe⟩ := rds_frame
    ⟨2, 2, none, "bicubic", "pillow"⟩ 0 0 0
    [("gt", Value.img (PyObj.array ⟨8, 8, 3⟩)), ("meta", Value.str "m")]
    hsucc
  exact ⟨hsucc, hframe "meta" (by decide) (by decide) (by decide)⟩
